import Mathlib

/-
Verification of the single-channel chat bot `cathy.py`.

Shallow embedding conventions:
* Python strings are Lean `String`s; the string-manipulation primitives the
  source uses (`str.split`, `in`, `startswith`, `upper`, `strip`, `replace`)
  are re-implemented below on `List Char` with Python's semantics, so that
  every definition is structurally recursive and kernel-computable.
* Network effects are oracles passed as function arguments: the price
  provider is `String → Except String StockInfo` (an `Except.error` models
  an exception raised during `yf.Ticker(t).info`), and the two HTTP
  fetch-and-parse pipelines are functions from the concrete `FetchRequest`
  the code builds (URL plus the timeout argument given to `requests.get`)
  to an `Except` of the parsed page.
* `c.privmsg(channel, text)` is the event `Event.send channel text`;
  the provider consultation performed inside `get_stock_price` (the
  `yf.Ticker(ticker)` / `.info` access, which happens exactly once per
  call) is the event `Event.providerCall ticker`.  A handler's result is
  its ordered list of events.
* Python truthiness tests on strings (`if stock_info:`, `if video_id:`,
  `if title:`, `if description:`) are non-emptiness tests.
* BeautifulSoup values: `soup.title` is `Option` (tag present?), and
  `soup.title.string` is a further `Option` (a tag need not own a string);
  likewise the `meta name="description"` tag and its `content` attribute.
  Calling `.strip()`/`.replace(...)` on `None`, or `tag["content"]` on a
  tag without that attribute, raises, and the surrounding `try/except`
  turns that into a `None` result.
* `info.get(key, default)`: each consulted key is a field of `StockInfo`;
  `none` models an absent key (for the price fields the code only tests
  `is None` / `is not None`, so a key holding `None` is observationally
  the same as an absent key).
-/

/-! ### Python string primitives (on `List Char`) -/

/-- Test `isPre p s` : `p` is a prefix of the character list `s`. -/
def isPre : List Char → List Char → Bool
  | [], _ => true
  | _ :: _, [] => false
  | a :: as, b :: bs => a == b && isPre as bs

/-- Test `hasSubL n s` : the character list `n` occurs as a contiguous
sublist of `s` (Python's `n in s`). -/
def hasSubL (needle : List Char) : List Char → Bool
  | [] => isPre needle []
  | c :: rest => isPre needle (c :: rest) || hasSubL needle rest

/-- Index of the first occurrence of `needle` in `s`, if any. -/
def findSubL (needle : List Char) : List Char → Option Nat
  | [] => if needle.isEmpty then some 0 else none
  | c :: rest =>
    if isPre needle (c :: rest) then some 0
    else (findSubL needle rest).map (fun n => n + 1)

/-- Prepend a character to the first block of a block list
(used to build up `split` results). -/
def mcons (c : Char) : List (List Char) → List (List Char)
  | [] => [[c]]
  | x :: xs => (c :: x) :: xs

/-- Fuelled Python `s.split(sep)` for a non-empty separator: non-overlapping
left-to-right matches, keeping empty blocks.  `fuel ≥ s.length` makes the
fuel irrelevant. -/
def splitLF (sep : List Char) : Nat → List Char → List (List Char)
  | _, [] => [[]]
  | 0, s => [s]
  | fuel + 1, c :: rest =>
    if isPre sep (c :: rest) then
      [] :: splitLF sep fuel ((c :: rest).drop sep.length)
    else
      mcons c (splitLF sep fuel rest)

/-- Python `s.split()` (split on whitespace runs, dropping empty blocks);
`acc` carries the reversed current word. -/
def splitWsAux (acc : List Char) : List Char → List (List Char)
  | [] => if acc.isEmpty then [] else [acc.reverse]
  | c :: rest =>
    if c.isWhitespace then
      if acc.isEmpty then splitWsAux [] rest
      else acc.reverse :: splitWsAux [] rest
    else
      splitWsAux (c :: acc) rest

/-- Python `s.split(sep)` on `String`s. -/
def pySplit (s sep : String) : List String :=
  (splitLF sep.data s.data.length s.data).map String.mk

/-- Python `s.split()` on `String`s. -/
def pySplitWs (s : String) : List String :=
  (splitWsAux [] s.data).map String.mk

/-- Python `needle in s` on `String`s. -/
def pyContains (s needle : String) : Bool :=
  hasSubL needle.data s.data

/-- Python `s.startswith(p)` on `String`s. -/
def pyStartsWith (s p : String) : Bool :=
  isPre p.data s.data

/-- Python `s.upper()` (ASCII letters, which is all the source feeds it). -/
def pyUpper (s : String) : String :=
  String.mk (s.data.map Char.toUpper)

/-- Python `s.strip()`: drop leading and trailing whitespace. -/
def pyStrip (s : String) : String :=
  String.mk (((s.data.dropWhile Char.isWhitespace).reverse.dropWhile
      Char.isWhitespace).reverse)

/-- Python `s.replace(a, b)` for non-empty `a`
(`b.join(s.split(a))`, which is what CPython computes). -/
def pyReplace (s a b : String) : String :=
  String.mk (List.intercalate b.data (splitLF a.data s.data.length s.data))

/-! ### Data model -/

/-- The provider response fields `get_stock_price` consults via
`info.get(...)`; `none` is an absent key.  A price value is kept as the
string it renders to inside an f-string. -/
structure StockInfo where
  regularMarketPrice : Option String
  regularMarketPreviousClose : Option String
  postMarketPrice : Option String
  preMarketPrice : Option String
  longName : Option String
  currency : Option String
deriving DecidableEq

/-- A parsed YouTube watch page: `titleTag = none` means the document has
no `title` tag; `some none` a `title` tag that owns no string. -/
structure VideoPage where
  titleTag : Option (Option String)
deriving DecidableEq

/-- A parsed generic page: the `title` tag (and its string) and the
`meta name="description"` tag (and its `content` attribute). -/
structure WebPage where
  titleTag : Option (Option String)
  metaDesc : Option (Option String)
deriving DecidableEq

/-- An outbound HTTP request as the code builds it: the URL handed to
`requests.get` together with its `timeout=` argument (`none` when the
call passes no timeout, i.e. `requests.get` may wait indefinitely). -/
structure FetchRequest where
  url : String
  timeout : Option Nat
deriving DecidableEq

/-- Observable actions: an IRC `privmsg` to a channel, or a consultation
of the price provider (`yf.Ticker(ticker)` / `.info`). -/
inductive Event where
  | send (channel : String) (line : String)
  | providerCall (ticker : String)
deriving DecidableEq

/-! ### The code (`cathy.py`), one Lean definition per method -/

/-- Embedding of `SingleChannelBot.extract_urls` (cathy.py:61-64):
`[word for word in text.split() if word.startswith("http")]`. -/
def extract_urls (text : String) : List String :=
  (pySplitWs text).filter (fun word => pyStartsWith word "http")

/-- Embedding of `SingleChannelBot.get_youtube_video_id` (cathy.py:67-75). -/
def get_youtube_video_id (url : String) : Option String :=
  if pyContains url "watch?v=" then
    some ((pySplit ((pySplit url "watch?v=").getD 1 "") "&").getD 0 "")
  else if pyContains url "/shorts/" then
    some ((pySplit ((pySplit url "/shorts/").getD 1 "") "?").getD 0 "")
  else if pyContains url "youtu.be/" then
    some ((pySplit ((pySplit url "youtu.be/").getD 1 "") "?").getD 0 "")
  else none

/-- The request issued by `get_youtube_video_title` (cathy.py:81):
`requests.get(f"https://www.youtube.com/watch?v={video_id}")` —
no `timeout=` argument is passed. -/
def youtube_title_request (video_id : String) : FetchRequest :=
  { url := "https://www.youtube.com/watch?v=" ++ video_id, timeout := none }

/-- Embedding of `SingleChannelBot.get_youtube_video_title` (cathy.py:78-88).
`fT` is the fetch-and-parse oracle (network + BeautifulSoup); an
`Except.error` is an exception from `requests.get`/`raise_for_status`.
A `titleTag` owning no string makes `title.replace` raise on `None`,
which the `except` turns into `None`. -/
def get_youtube_video_title (fT : FetchRequest → Except String VideoPage)
    (video_id : String) : Option String :=
  match fT (youtube_title_request video_id) with
  | .error _ => none
  | .ok page =>
    let title : Option String :=
      match page.titleTag with
      | some s => s
      | none => some "No Title Found"
    match title with
    | none => none
    | some t => some (pyStrip (pyReplace t "- YouTube" ""))

/-- The request issued by `get_webpage_description` (cathy.py:94):
`requests.get(url, timeout=10)`. -/
def webpage_request (url : String) : FetchRequest :=
  { url := url, timeout := some 10 }

/-- Embedding of `SingleChannelBot.get_webpage_description` (cathy.py:91-103).
A present `title` tag with no string (`soup.title.string.strip()` on
`None`), or a present meta tag without a `content` attribute
(`meta_desc_tag["content"]` KeyError), raises and yields `None`. -/
def get_webpage_description (fP : FetchRequest → Except String WebPage)
    (url : String) : Option String :=
  match fP (webpage_request url) with
  | .error _ => none
  | .ok page =>
    let title? : Option String :=
      match page.titleTag with
      | none => some "No Title"
      | some none => none
      | some (some s) => some (pyStrip s)
    match title? with
    | none => none
    | some title =>
      let meta? : Option String :=
        match page.metaDesc with
        | none => some "No Description"
        | some none => none
        | some (some s) => some (pyStrip s)
      match meta? with
      | none => none
      | some meta_desc =>
        some ("Title: " ++ title ++ ", Description: " ++ meta_desc)

/-- Embedding of `SingleChannelBot.get_stock_price` (cathy.py:120-153).  The body of
the `try` consults the provider once and then only reads `info`; an
`Except.error` models any exception raised during the lookup, which the
`except` converts into the fixed error reply. -/
def get_stock_price (provider : String → Except String StockInfo)
    (ticker : String) : String :=
  match provider ticker with
  | .error _ =>
    "Error fetching data for ticker: " ++ ticker ++ ". Please try again later."
  | .ok info =>
    let current_price := info.regularMarketPrice
    let previous_close := info.regularMarketPreviousClose
    let after_hours := info.postMarketPrice
    let pre_market := info.preMarketPrice
    let company_name := info.longName.getD ticker
    let currency := info.currency.getD "N/A"
    match current_price with
    | none =>
      match pre_market with
      | some p =>
        company_name ++ " (" ++ ticker ++ ") is trading at " ++ p ++ " " ++
          currency ++ " in pre-market trading."
      | none =>
        match after_hours with
        | some a =>
          company_name ++ " (" ++ ticker ++ ") is trading at " ++ a ++ " " ++
            currency ++ " in after-hours trading."
        | none =>
          match previous_close with
          | some pc =>
            company_name ++ " (" ++ ticker ++ ") closed at " ++ pc ++ " " ++
              currency ++ " on the last trading day."
          | none => "No price data available for ticker: " ++ ticker
    | some cp =>
      company_name ++ " (" ++ ticker ++ ") is currently trading at " ++ cp ++
        " " ++ currency

/-- Embedding of `SingleChannelBot.handle_stock_command` (cathy.py:106-117).
`if stock_info:` is Python string truthiness, i.e. non-emptiness. -/
def handle_stock_command (provider : String → Except String StockInfo)
    (message channel : String) : List Event :=
  let parts := pySplitWs message
  if parts.length = 2 then
    let ticker := pyUpper (parts.getD 1 "")
    let stock_info := get_stock_price provider ticker
    if stock_info ≠ "" then
      [Event.providerCall ticker, Event.send channel stock_info]
    else
      [Event.providerCall ticker,
       Event.send channel ("Could not retrieve data for ticker: " ++ ticker)]
  else
    [Event.send channel "Usage: !stock TICKER"]

/-- The per-URL body of the `for url in urls:` loop in `on_pubmsg`
(cathy.py:46-58); `if video_id:` / `if title:` / `if description:` are
string truthiness tests. -/
def enrich_url (fT : FetchRequest → Except String VideoPage)
    (fP : FetchRequest → Except String WebPage)
    (channel url : String) : List Event :=
  if pyContains url "youtube.com" || pyContains url "youtu.be" then
    match get_youtube_video_id url with
    | none => []
    | some video_id =>
      if video_id ≠ "" then
        match get_youtube_video_title fT video_id with
        | none => []
        | some title =>
          if title ≠ "" then [Event.send channel ("YouTube Title: " ++ title)]
          else []
      else []
  else
    match get_webpage_description fP url with
    | none => []
    | some description =>
      if description ≠ "" then
        [Event.send channel ("Page Info: " ++ description)]
      else []

/-- Embedding of `SingleChannelBot.on_pubmsg` (cathy.py:34-58): dispatch on the
`message.startswith("!stock")` test; otherwise run the enrichment loop
over the extracted URLs, concatenating the events each iteration emits. -/
def on_pubmsg (provider : String → Except String StockInfo)
    (fT : FetchRequest → Except String VideoPage)
    (fP : FetchRequest → Except String WebPage)
    (message channel : String) : List Event :=
  if pyStartsWith message "!stock" then
    handle_stock_command provider message channel
  else
    (extract_urls message).flatMap (enrich_url fT fP channel)

/-! ### Spec-side definitions for the video-identifier rule (C4) -/

/-- The text of `s` up to (excluding) the first occurrence of `needle`,
or all of `s` when `needle` does not occur. -/
def uptoSub (needle s : List Char) : List Char :=
  match findSubL needle s with
  | some j => s.take j
  | none => s

/-- The text of `s` after the first occurrence of `needle`
(`[]` when `needle` does not occur; only used under an occurrence guard). -/
def afterSub (needle s : List Char) : List Char :=
  match findSubL needle s with
  | some i => s.drop (i + needle.length)
  | none => []

/-- The extraction rule exactly as the claim states it: first matching
marker wins, and the identifier is the text between that marker and the
next stop character (`&` resp. `?`), or the end of the string. -/
def claim_video_id (url : String) : Option String :=
  if pyContains url "watch?v=" then
    some (String.mk ((afterSub ("watch?v=").data url.data).takeWhile
      (fun c => c != '&')))
  else if pyContains url "/shorts/" then
    some (String.mk ((afterSub ("/shorts/").data url.data).takeWhile
      (fun c => c != '?')))
  else if pyContains url "youtu.be/" then
    some (String.mk ((afterSub ("youtu.be/").data url.data).takeWhile
      (fun c => c != '?')))
  else none

/-- The segment after the first occurrence of marker `m`, truncated at
the next (non-overlapping) occurrence of `m` if any, then truncated at
the first stop character `x`. -/
def segWithStop (m : List Char) (x : Char) (u : List Char) : List Char :=
  (uptoSub m (afterSub m u)).takeWhile (fun c => c != x)

/-- The amended extraction rule: as `claim_video_id`, except that the
identifier is additionally cut short at a second occurrence of the
marker itself (which is what `str.split(marker)[1]` produces). -/
def amended_video_id (url : String) : Option String :=
  if pyContains url "watch?v=" then
    some (String.mk (segWithStop ("watch?v=").data '&' url.data))
  else if pyContains url "/shorts/" then
    some (String.mk (segWithStop ("/shorts/").data '?' url.data))
  else if pyContains url "youtu.be/" then
    some (String.mk (segWithStop ("youtu.be/").data '?' url.data))
  else none

/-! ### Helper lemmas: occurrence search -/

theorem hasSubL_eq_isSome (needle s : List Char) :
    hasSubL needle s = (findSubL needle s).isSome := by
  induction s with
  | nil =>
    cases needle <;> simp [hasSubL, findSubL, isPre]
  | cons c rest ih =>
    cases h : isPre needle (c :: rest) with
    | true => simp [hasSubL, findSubL, h]
    | false =>
      simp only [hasSubL, findSubL, h, Bool.false_eq_true, if_false,
        Bool.false_or]
      rw [ih]
      cases findSubL needle rest <;> simp

theorem uptoSub_cons_of_not (m : List Char) (c : Char) (rest : List Char)
    (h : isPre m (c :: rest) = false) :
    uptoSub m (c :: rest) = c :: uptoSub m rest := by
  simp only [uptoSub, findSubL, h, if_false]
  cases findSubL m rest <;> simp

theorem uptoSub_singleton (x : Char) (t : List Char) :
    uptoSub [x] t = t.takeWhile (fun c => c != x) := by
  induction t with
  | nil => simp [uptoSub, findSubL]
  | cons c rest ih =>
    by_cases h : c = x
    · subst h
      simp [uptoSub, findSubL, isPre, List.takeWhile_cons]
    · have hp : isPre [x] (c :: rest) = false := by
        simp [isPre]
        exact fun hxc => absurd hxc.symm h
      rw [uptoSub_cons_of_not _ _ _ hp, ih]
      simp [List.takeWhile_cons, h]

/-! ### Helper lemmas: the fuelled split -/

theorem getD0_mcons (c : Char) (L : List (List Char)) :
    (mcons c L).getD 0 [] = c :: L.getD 0 [] := by
  cases L <;> rfl

theorem getD1_mcons (c : Char) (L : List (List Char)) :
    (mcons c L).getD 1 [] = L.getD 1 [] := by
  cases L <;> rfl

theorem splitLF_getD0 (a : Char) (as : List Char) :
    ∀ fuel s, s.length ≤ fuel →
      (splitLF (a :: as) fuel s).getD 0 [] = uptoSub (a :: as) s := by
  intro fuel
  induction fuel with
  | zero =>
    intro s hs
    have hnil : s = [] := by
      cases s with
      | nil => rfl
      | cons c rest => simp at hs
    subst hnil
    simp [splitLF, uptoSub, findSubL]
  | succ fuel ih =>
    intro s hs
    cases s with
    | nil => simp [splitLF, uptoSub, findSubL]
    | cons c rest =>
      cases h : isPre (a :: as) (c :: rest) with
      | true =>
        simp only [splitLF, h, if_true, List.getD_cons_zero]
        simp [uptoSub, findSubL, h]
      | false =>
        simp only [splitLF, h, Bool.false_eq_true, if_false]
        rw [getD0_mcons, ih rest (by simpa using Nat.le_of_succ_le_succ hs),
          uptoSub_cons_of_not _ _ _ h]

theorem splitLF_getD1 (a : Char) (as : List Char) :
    ∀ fuel s, s.length ≤ fuel → hasSubL (a :: as) s = true →
      (splitLF (a :: as) fuel s).getD 1 [] =
        uptoSub (a :: as) (afterSub (a :: as) s) := by
  intro fuel
  induction fuel with
  | zero =>
    intro s hs hsub
    have hnil : s = [] := by
      cases s with
      | nil => rfl
      | cons c rest => simp at hs
    subst hnil
    simp [hasSubL, isPre] at hsub
  | succ fuel ih =>
    intro s hs hsub
    cases s with
    | nil => simp [hasSubL, isPre] at hsub
    | cons c rest =>
      cases h : isPre (a :: as) (c :: rest) with
      | true =>
        simp only [splitLF, h, if_true, List.getD_cons_succ]
        have hdrop : (c :: rest).drop (a :: as).length = rest.drop as.length := by
          simp [List.length_cons]
        have hrest : rest.length ≤ fuel := by
          simpa using Nat.le_of_succ_le_succ hs
        rw [hdrop, splitLF_getD0 a as fuel (rest.drop as.length)
          (by rw [List.length_drop]; omega)]
        have hafter : afterSub (a :: as) (c :: rest) = rest.drop as.length := by
          simp [afterSub, findSubL, h, List.length_cons]
        rw [hafter]
      | false =>
        have hsub' : hasSubL (a :: as) rest = true := by
          simpa [hasSubL, h] using hsub
        simp only [splitLF, h, Bool.false_eq_true, if_false]
        rw [getD1_mcons, ih rest (by simpa using Nat.le_of_succ_le_succ hs) hsub']
        have hafter : afterSub (a :: as) (c :: rest) = afterSub (a :: as) rest := by
          have hiso : (findSubL (a :: as) rest).isSome = true := by
            rw [← hasSubL_eq_isSome]; exact hsub'
          obtain ⟨i, hi⟩ := Option.isSome_iff_exists.mp hiso
          simp only [afterSub, findSubL, h, Bool.false_eq_true, if_false, hi,
            Option.map_some']
          have : i + 1 + (a :: as).length = (i + (a :: as).length) + 1 := by omega
          rw [this, List.drop_succ_cons]
        rw [hafter]

/-! ### Helper lemmas: bridging `pySplit` to the spec-side rule -/

theorem getD_map_mk (L : List (List Char)) (n : Nat) :
    (L.map String.mk).getD n "" = String.mk (L.getD n []) := by
  induction L generalizing n with
  | nil => cases n <;> rfl
  | cons x xs ih =>
    cases n with
    | zero => rfl
    | succ m => simp [List.getD_cons_succ, ih m]

theorem pySplit_getD1 (u sep : String) (a : Char) (as : List Char)
    (hsep : sep.data = a :: as) (h : pyContains u sep = true) :
    (pySplit u sep).getD 1 "" =
      String.mk (uptoSub sep.data (afterSub sep.data u.data)) := by
  unfold pySplit
  rw [getD_map_mk, hsep]
  exact congrArg String.mk
    (splitLF_getD1 a as u.data.length u.data (le_refl _)
      (by rw [← hsep]; exact h))

theorem pySplit_getD0_single (w sep : String) (x : Char)
    (hx : sep.data = [x]) :
    (pySplit w sep).getD 0 "" =
      String.mk (w.data.takeWhile (fun c => c != x)) := by
  unfold pySplit
  rw [getD_map_mk, hx,
    splitLF_getD0 x [] w.data.length w.data (le_refl _),
    uptoSub_singleton]

/-! ### Helper lemmas: strings, traces, and the stock handler -/

theorem append_ne_empty_left (a b : String) (h : a ≠ "") : a ++ b ≠ "" := by
  intro hc
  apply h
  apply String.ext
  have hd := congrArg String.data hc
  rw [String.data_append] at hd
  exact (List.append_eq_nil.mp hd).1

theorem append_ne_empty_right (a b : String) (h : b ≠ "") : a ++ b ≠ "" := by
  intro hc
  apply h
  apply String.ext
  have hd := congrArg String.data hc
  rw [String.data_append] at hd
  exact (List.append_eq_nil.mp hd).2

/-- Whether an event is a channel message (as opposed to a provider
consultation). -/
def isSend : Event → Bool
  | Event.send _ _ => true
  | Event.providerCall _ => false

theorem length_flatMap_le {α β : Type} (l : List α) (f : α → List β)
    (h : ∀ a, (f a).length ≤ 1) : (l.flatMap f).length ≤ l.length := by
  induction l with
  | nil => simp
  | cons a t ih =>
    rw [List.flatMap_cons, List.length_append, List.length_cons]
    have := h a
    omega

theorem enrich_url_length_le (fT : FetchRequest → Except String VideoPage)
    (fP : FetchRequest → Except String WebPage) (channel url : String) :
    (enrich_url fT fP channel url).length ≤ 1 := by
  unfold enrich_url
  repeat' split
  all_goals simp

theorem get_stock_price_ne_empty (provider : String → Except String StockInfo)
    (ticker : String) : get_stock_price provider ticker ≠ "" := by
  unfold get_stock_price
  cases hp : provider ticker with
  | error e =>
    exact append_ne_empty_left _ _ (append_ne_empty_left _ _ (by decide))
  | ok info =>
    cases hcp : info.regularMarketPrice with
    | some cp =>
      simp only [hcp]
      exact append_ne_empty_left _ _ (append_ne_empty_right _ _ (by decide))
    | none =>
      simp only [hcp]
      cases hpm : info.preMarketPrice with
      | some p =>
        simp only [hpm]
        exact append_ne_empty_right _ _ (by decide)
      | none =>
        simp only [hpm]
        cases hah : info.postMarketPrice with
        | some a =>
          simp only [hah]
          exact append_ne_empty_right _ _ (by decide)
        | none =>
          simp only [hah]
          cases hpc : info.regularMarketPreviousClose with
          | some pc =>
            simp only [hpc]
            exact append_ne_empty_right _ _ (by decide)
          | none =>
            simp only [hpc]
            exact append_ne_empty_left _ _ (by decide)

theorem handle_stock_command_trace
    (provider : String → Except String StockInfo) (message channel : String)
    (hlen : (pySplitWs message).length = 2) :
    handle_stock_command provider message channel =
      [Event.providerCall (pyUpper ((pySplitWs message).getD 1 "")),
       Event.send channel
         (get_stock_price provider (pyUpper ((pySplitWs message).getD 1 "")))] := by
  simp only [handle_stock_command]
  rw [if_pos hlen, if_pos (get_stock_price_ne_empty _ _)]

/-! ### Concrete oracles used by the witnesses and counterexamples -/

/-- A provider that always raises. -/
def provErr : String → Except String StockInfo := fun _ => .error "offline"

/-- A provider response carrying only a previous close. -/
def infoPrevOnly : StockInfo :=
  { regularMarketPrice := none, regularMarketPreviousClose := some "101.5",
    postMarketPrice := none, preMarketPrice := none,
    longName := some "Acme Corp", currency := some "USD" }

/-- A provider that always answers with `infoPrevOnly`. -/
def provPrevOnly : String → Except String StockInfo := fun _ => .ok infoPrevOnly

/-- A video fetch that always parses to a page titled "A Video - YouTube". -/
def fTok : FetchRequest → Except String VideoPage :=
  fun _ => .ok ⟨some (some "A Video - YouTube")⟩

/-- A generic-page fetch that always fails (e.g. a timeout). -/
def fPfail : FetchRequest → Except String WebPage := fun _ => .error "timeout"

/-! ### The claims -/

/-- Claim C1: the price-tier fallback of `get_stock_price` is
deterministic and exhaustive in the order REGULAR, PRE_MARKET,
AFTER_HOURS, PREVIOUS_CLOSE, first available wins: with a regular market
price present the reply uses the live-trading phrasing; with only a
previous-close value set it uses the "closed at ... on the last trading
day" phrasing (and therefore never the live-trading one); with no tier
present it is exactly "No price data available for ticker: <symbol>". -/
theorem c1_price_tier_fallback
    (provider : String → Except String StockInfo) (ticker : String)
    (info : StockInfo) (hok : provider ticker = .ok info) :
    (∀ cp, info.regularMarketPrice = some cp →
      get_stock_price provider ticker =
        info.longName.getD ticker ++ " (" ++ ticker ++
          ") is currently trading at " ++ cp ++ " " ++ info.currency.getD "N/A")
    ∧ (∀ p, info.regularMarketPrice = none → info.preMarketPrice = some p →
      get_stock_price provider ticker =
        info.longName.getD ticker ++ " (" ++ ticker ++ ") is trading at " ++
          p ++ " " ++ info.currency.getD "N/A" ++ " in pre-market trading.")
    ∧ (∀ a, info.regularMarketPrice = none → info.preMarketPrice = none →
      info.postMarketPrice = some a →
      get_stock_price provider ticker =
        info.longName.getD ticker ++ " (" ++ ticker ++ ") is trading at " ++
          a ++ " " ++ info.currency.getD "N/A" ++ " in after-hours trading.")
    ∧ (∀ pc, info.regularMarketPrice = none → info.preMarketPrice = none →
      info.postMarketPrice = none →
      info.regularMarketPreviousClose = some pc →
      get_stock_price provider ticker =
        info.longName.getD ticker ++ " (" ++ ticker ++ ") closed at " ++
          pc ++ " " ++ info.currency.getD "N/A" ++ " on the last trading day.")
    ∧ (info.regularMarketPrice = none → info.preMarketPrice = none →
      info.postMarketPrice = none →
      info.regularMarketPreviousClose = none →
      get_stock_price provider ticker =
        "No price data available for ticker: " ++ ticker) := by
  refine ⟨?_, ?_, ?_, ?_, ?_⟩ <;>
    · intros
      unfold get_stock_price
      simp_all

/-- Witness for C1: with a response holding only a previous close, the
reply is the closed-at phrasing with the concrete fields filled in. -/
theorem c1_price_tier_fallback_witness :
    get_stock_price provPrevOnly "ACME" =
      "Acme Corp (ACME) closed at 101.5 USD on the last trading day." := by
  rw [(c1_price_tier_fallback provPrevOnly "ACME" infoPrevOnly
    rfl).2.2.2.1 "101.5" rfl rfl rfl rfl]
  decide

/-- Claim C3: for a two-token stock command, a provider exception is
caught and converted into exactly one reply with the exact text
"Error fetching data for ticker: <symbol>. Please try again later."
(symbol uppercased) and no other channel output; the embedded handler is
a total function into event traces, so the error cannot escape to the
dispatcher. -/
theorem c3_provider_error_reply
    (provider : String → Except String StockInfo)
    (message channel e : String)
    (hlen : (pySplitWs message).length = 2)
    (herr : provider (pyUpper ((pySplitWs message).getD 1 "")) = .error e) :
    handle_stock_command provider message channel =
      [Event.providerCall (pyUpper ((pySplitWs message).getD 1 "")),
       Event.send channel
         ("Error fetching data for ticker: " ++
           pyUpper ((pySplitWs message).getD 1 "") ++
           ". Please try again later.")]
    ∧ ((handle_stock_command provider message channel).filter isSend).length
        = 1 := by
  have hprice : get_stock_price provider
      (pyUpper ((pySplitWs message).getD 1 "")) =
      "Error fetching data for ticker: " ++
        pyUpper ((pySplitWs message).getD 1 "") ++
        ". Please try again later." := by
    unfold get_stock_price
    rw [herr]
  have h1 := handle_stock_command_trace provider message channel hlen
  rw [h1, hprice]
  exact ⟨rfl, by simp [List.filter, isSend]⟩

/-- Witness for C3: a raising provider and the command "!stock aapl". -/
theorem c3_provider_error_reply_witness :
    handle_stock_command provErr "!stock aapl" "#chan" =
      [Event.providerCall "AAPL",
       Event.send "#chan"
         "Error fetching data for ticker: AAPL. Please try again later."] := by
  rw [(c3_provider_error_reply provErr "!stock aapl" "#chan" "offline"
    (by decide) rfl).1]
  decide

/-- Claim C5: a message routed to the stock handler that does not split
into exactly two whitespace tokens yields exactly the fixed usage reply
"Usage: !stock TICKER"; the trace contains no provider call and the
result does not depend on the provider at all. -/
theorem c5_usage_on_bad_arity
    (provider : String → Except String StockInfo) (message channel : String)
    (hlen : (pySplitWs message).length ≠ 2) :
    handle_stock_command provider message channel =
      [Event.send channel "Usage: !stock TICKER"]
    ∧ (∀ provider2, handle_stock_command provider2 message channel =
        handle_stock_command provider message channel) := by
  have h1 : ∀ p : String → Except String StockInfo,
      handle_stock_command p message channel =
        [Event.send channel "Usage: !stock TICKER"] := by
    intro p
    simp only [handle_stock_command]
    rw [if_neg hlen]
  exact ⟨h1 provider, fun p2 => by rw [h1 p2, h1 provider]⟩

/-- Witness for C5: "!stock AAPL MSFT" (three tokens). -/
theorem c5_usage_on_bad_arity_witness :
    handle_stock_command provErr "!stock AAPL MSFT" "#chan" =
      [Event.send "#chan" "Usage: !stock TICKER"] :=
  (c5_usage_on_bad_arity provErr "!stock AAPL MSFT" "#chan" (by decide)).1

/-- Claim C10: `get_stock_price` returns a non-empty string for every
ticker and every provider behavior (any data shape, any exception), so
the "Could not retrieve data for ticker" branch of
`handle_stock_command` is unreachable (its guard `if stock_info:` always
takes the truthy branch) and a two-token stock command always produces
exactly one reply. -/
theorem c10_stock_reply_total
    (provider : String → Except String StockInfo) (message channel : String)
    (hlen : (pySplitWs message).length = 2) :
    (∀ p t, get_stock_price p t ≠ "")
    ∧ handle_stock_command provider message channel =
        [Event.providerCall (pyUpper ((pySplitWs message).getD 1 "")),
         Event.send channel
           (get_stock_price provider
             (pyUpper ((pySplitWs message).getD 1 "")))]
    ∧ ((handle_stock_command provider message channel).filter isSend).length
        = 1 := by
  refine ⟨get_stock_price_ne_empty, handle_stock_command_trace _ _ _ hlen, ?_⟩
  rw [handle_stock_command_trace _ _ _ hlen]
  simp [List.filter, isSend]

/-- Witness for C10: a two-token command against the previous-close-only
provider produces exactly one reply. -/
theorem c10_stock_reply_total_witness :
    handle_stock_command provPrevOnly "!stock acme" "#chan" =
      [Event.providerCall "ACME",
       Event.send "#chan"
         "Acme Corp (ACME) closed at 101.5 USD on the last trading day."] := by
  rw [(c10_stock_reply_total provPrevOnly "!stock acme" "#chan" (by decide)).2.1]
  decide

/-- Claim C2: for a non-command message, the enrichment pass is the
concatenation of one independent attempt per `http`-prefixed token: zero
replies when there is no such token, at most one reply per token (so at
most N replies for N tokens, each attributable to the token whose
attempt emitted it), and each attempt depends only on the fetch results
for its own token, so one URL's fetch or parse failure cannot suppress
or abort the replies for the other URLs of the same message. -/
theorem c2_enrichment_fanout
    (provider : String → Except String StockInfo)
    (fT : FetchRequest → Except String VideoPage)
    (fP : FetchRequest → Except String WebPage)
    (message channel : String)
    (hcmd : pyStartsWith message "!stock" = false) :
    on_pubmsg provider fT fP message channel =
      (extract_urls message).flatMap (enrich_url fT fP channel)
    ∧ (extract_urls message = [] →
        on_pubmsg provider fT fP message channel = [])
    ∧ (on_pubmsg provider fT fP message channel).length ≤
        (extract_urls message).length
    ∧ (∀ url, (enrich_url fT fP channel url).length ≤ 1)
    ∧ (∀ fT2 fP2 url,
        (∀ vid, get_youtube_video_id url = some vid →
          fT (youtube_title_request vid) = fT2 (youtube_title_request vid)) →
        fP (webpage_request url) = fP2 (webpage_request url) →
        enrich_url fT fP channel url = enrich_url fT2 fP2 channel url) := by
  have hmain : on_pubmsg provider fT fP message channel =
      (extract_urls message).flatMap (enrich_url fT fP channel) := by
    unfold on_pubmsg
    simp [hcmd]
  refine ⟨hmain, ?_, ?_, enrich_url_length_le fT fP channel, ?_⟩
  · intro hz
    rw [hmain, hz]
    rfl
  · rw [hmain]
    exact length_flatMap_le _ _ (enrich_url_length_le fT fP channel)
  · intro fT2 fP2 url hT hP
    unfold enrich_url
    by_cases hyt : (pyContains url "youtube.com" || pyContains url "youtu.be")
        = true
    · simp only [hyt, if_true]
      cases hid : get_youtube_video_id url with
      | none => rfl
      | some vid =>
        have htitle : get_youtube_video_title fT vid =
            get_youtube_video_title fT2 vid := by
          unfold get_youtube_video_title
          rw [hT vid hid]
        simp only [htitle]
    · simp only [hyt, Bool.false_eq_true, if_false]
      have hdesc : get_webpage_description fP url =
          get_webpage_description fP2 url := by
        unfold get_webpage_description
        rw [hP]
      rw [hdesc]

/-- Witness for C2: a message with one failing generic URL and one
succeeding video URL still gets the video reply. -/
theorem c2_enrichment_fanout_witness :
    on_pubmsg provErr fTok fPfail
      "see http://a.example and https://youtu.be/abc" "#chan" =
      [Event.send "#chan" "YouTube Title: A Video"] := by
  rw [(c2_enrichment_fanout provErr fTok fPfail
    "see http://a.example and https://youtu.be/abc" "#chan" (by decide)).1]
  decide

/-- Claim C9: dispatch checks only the string head "!stock": a message
whose text starts with those characters (e.g. "!stocks AAPL") is routed
to the stock handler, URL enrichment is skipped (the result never
depends on the fetch oracles), and with exactly two whitespace tokens a
price lookup is performed for the second token uppercased. -/
theorem c9_dispatch_checks_string_head
    (provider : String → Except String StockInfo)
    (fT : FetchRequest → Except String VideoPage)
    (fP : FetchRequest → Except String WebPage)
    (message channel : String)
    (hcmd : pyStartsWith message "!stock" = true) :
    on_pubmsg provider fT fP message channel =
      handle_stock_command provider message channel
    ∧ (∀ fT2 fP2, on_pubmsg provider fT2 fP2 message channel =
        on_pubmsg provider fT fP message channel)
    ∧ ((pySplitWs message).length = 2 →
        on_pubmsg provider fT fP message channel =
          [Event.providerCall (pyUpper ((pySplitWs message).getD 1 "")),
           Event.send channel
             (get_stock_price provider
               (pyUpper ((pySplitWs message).getD 1 "")))]) := by
  have hroute : ∀ (g1 : FetchRequest → Except String VideoPage)
      (g2 : FetchRequest → Except String WebPage),
      on_pubmsg provider g1 g2 message channel =
        handle_stock_command provider message channel := by
    intro g1 g2
    unfold on_pubmsg
    rw [if_pos hcmd]
  refine ⟨hroute fT fP, fun fT2 fP2 => by rw [hroute, hroute], ?_⟩
  intro hlen
  rw [hroute, handle_stock_command_trace _ _ _ hlen]

/-- Witness for C9: "!stocks AAPL" starts with "!stock", so it is treated
as a stock command for ticker "AAPL" despite the different first word. -/
theorem c9_dispatch_checks_string_head_witness :
    on_pubmsg provErr fTok fPfail "!stocks AAPL" "#chan" =
      [Event.providerCall "AAPL",
       Event.send "#chan"
         "Error fetching data for ticker: AAPL. Please try again later."] := by
  rw [(c9_dispatch_checks_string_head provErr fTok fPfail "!stocks AAPL"
    "#chan" (by decide)).2.2 (by decide)]
  decide

/-- Claim C6 is violated by the code: the generic-page fetch passes
`timeout=10` to `requests.get`, but the video-title fetch passes no
timeout argument at all, so a hung video-page fetch is unbounded. -/
theorem c6_fetch_timeout_fields (video_id url : String) :
    (youtube_title_request video_id).timeout = none
    ∧ (webpage_request url).timeout = some 10 :=
  ⟨rfl, rfl⟩

/-- A video fetch that parses to a document with no `title` tag. -/
def fTnoTitleTag : FetchRequest → Except String VideoPage :=
  fun _ => .ok ⟨none⟩

/-- Counterexample to claim C7 as stated: a successfully fetched video
page whose parsed document has no title yields the fallback string
"No Title Found", and a reply IS sent to the channel, rather than the
claimed absent result with no reply. -/
theorem c7_counterexample :
    get_youtube_video_title fTnoTitleTag "abc" = some "No Title Found"
    ∧ on_pubmsg provErr fTnoTitleTag fPfail "https://youtu.be/abc" "#chan" =
        [Event.send "#chan" "YouTube Title: No Title Found"] := by
  decide

/-- Claim C7 (amended): in the video strategy, a fetched page whose
parsed document has no title tag yields the fallback title
"No Title Found" and the reply "YouTube Title: No Title Found" is sent;
a title tag owning no string, or a fetch error (network failure or
non-2xx status), yields an absent result and no reply. -/
theorem c7_video_missing_title
    (fT : FetchRequest → Except String VideoPage)
    (fP : FetchRequest → Except String WebPage)
    (channel url video_id : String)
    (hyt : (pyContains url "youtube.com" || pyContains url "youtu.be") = true)
    (hid : get_youtube_video_id url = some video_id)
    (hvid : video_id ≠ "") :
    (fT (youtube_title_request video_id) = .ok ⟨none⟩ →
      get_youtube_video_title fT video_id = some "No Title Found"
      ∧ enrich_url fT fP channel url =
          [Event.send channel "YouTube Title: No Title Found"])
    ∧ (fT (youtube_title_request video_id) = .ok ⟨some none⟩ →
      get_youtube_video_title fT video_id = none
      ∧ enrich_url fT fP channel url = [])
    ∧ (∀ e, fT (youtube_title_request video_id) = .error e →
      get_youtube_video_title fT video_id = none
      ∧ enrich_url fT fP channel url = []) := by
  refine ⟨?_, ?_, ?_⟩
  · intro hfetch
    have htitle : get_youtube_video_title fT video_id =
        some "No Title Found" := by
      unfold get_youtube_video_title
      rw [hfetch]
      simp
      decide
    refine ⟨htitle, ?_⟩
    unfold enrich_url
    simp only [hyt, if_true, hid]
    rw [if_pos hvid, htitle]
    have happ : ("YouTube Title: " ++ "No Title Found" : String) =
        "YouTube Title: No Title Found" := by decide
    simp [happ]
  · intro hfetch
    have htitle : get_youtube_video_title fT video_id = none := by
      unfold get_youtube_video_title
      rw [hfetch]
    refine ⟨htitle, ?_⟩
    unfold enrich_url
    simp only [hyt, if_true, hid]
    rw [if_pos hvid, htitle]
  · intro e hfetch
    have htitle : get_youtube_video_title fT video_id = none := by
      unfold get_youtube_video_title
      rw [hfetch]
    refine ⟨htitle, ?_⟩
    unfold enrich_url
    simp only [hyt, if_true, hid]
    rw [if_pos hvid, htitle]

/-- Witness for the amended C7: the no-title-tag page produces the
fallback reply. -/
theorem c7_video_missing_title_witness :
    enrich_url fTnoTitleTag fPfail "#chan" "https://youtu.be/abc" =
      [Event.send "#chan" "YouTube Title: No Title Found"] :=
  ((c7_video_missing_title fTnoTitleTag fPfail "#chan" "https://youtu.be/abc"
    "abc" (by decide) (by decide) (by decide)).1 rfl).2

/-- A generic-page fetch that parses to a title tag owning no string
(as BeautifulSoup reports for e.g. an empty or nested title element). -/
def fPemptyTitleTag : FetchRequest → Except String WebPage :=
  fun _ => .ok ⟨some none, none⟩

/-- Counterexample to claim C8 as stated: a successful fetch whose parsed
title tag owns no string makes `soup.title.string.strip()` raise, so the
enrichment yields no reply at all instead of exactly one reply built
from the fallbacks. -/
theorem c8_counterexample :
    get_webpage_description fPemptyTitleTag "http://x.example" = none
    ∧ on_pubmsg provErr fTok fPemptyTitleTag "http://x.example" "#chan"
        = [] := by
  decide

/-- Claim C8 (amended): for every successful generic-page fetch whose
title tag (when present) owns a string and whose meta-description tag
(when present) has a `content` attribute, exactly one reply line is
produced, combining the page title (the literal "No Title" when the tag
is absent) and the meta-description content (the literal
"No Description" when the tag is absent); a present title tag without a
string, or a present meta tag without the attribute, raises during
parsing and yields no reply. -/
theorem c8_generic_page_reply
    (fT : FetchRequest → Except String VideoPage)
    (fP : FetchRequest → Except String WebPage)
    (channel url : String) (page : WebPage)
    (hyt : (pyContains url "youtube.com" || pyContains url "youtu.be")
      = false)
    (hok : fP (webpage_request url) = .ok page)
    (hT : page.titleTag ≠ some none)
    (hM : page.metaDesc ≠ some none) :
    ∃ t d,
      get_webpage_description fP url =
        some ("Title: " ++ t ++ ", Description: " ++ d)
      ∧ (page.titleTag = none → t = "No Title")
      ∧ (∀ s, page.titleTag = some (some s) → t = pyStrip s)
      ∧ (page.metaDesc = none → d = "No Description")
      ∧ (∀ s, page.metaDesc = some (some s) → d = pyStrip s)
      ∧ enrich_url fT fP channel url =
          [Event.send channel
            ("Page Info: " ++ ("Title: " ++ t ++ ", Description: " ++ d))] := by
  have hne : ∀ t d : String,
      ("Title: " ++ t ++ ", Description: " ++ d) ≠ "" := by
    intro t d
    exact append_ne_empty_left _ _ (append_ne_empty_right _ _ (by decide))
  have henrich : ∀ t d : String,
      get_webpage_description fP url =
        some ("Title: " ++ t ++ ", Description: " ++ d) →
      enrich_url fT fP channel url =
        [Event.send channel
          ("Page Info: " ++ ("Title: " ++ t ++ ", Description: " ++ d))] := by
    intro t d hdesc
    unfold enrich_url
    simp only [hyt, Bool.false_eq_true, if_false, hdesc]
    rw [if_pos (hne t d)]
  have hbase : ∀ t? d?,
      page = ⟨t?, d?⟩ →
      get_webpage_description fP url =
        (match t? with
          | none => some "No Title"
          | some none => none
          | some (some s) => some (pyStrip s)).bind (fun title =>
        (match d? with
          | none => some "No Description"
          | some none => none
          | some (some s) => some (pyStrip s)).map (fun meta_desc =>
            "Title: " ++ title ++ ", Description: " ++ meta_desc)) := by
    intro t? d? hpage
    unfold get_webpage_description
    rw [hok, hpage]
    cases t? with
    | none =>
      cases d? with
      | none => rfl
      | some i => cases i <;> rfl
    | some j =>
      cases j with
      | none => rfl
      | some s =>
        cases d? with
        | none => rfl
        | some i => cases i <;> rfl
  obtain ⟨t?, d?⟩ := page
  cases t? with
  | some j =>
    cases j with
    | none => exact absurd rfl hT
    | some s =>
      cases d? with
      | some i =>
        cases i with
        | none => exact absurd rfl hM
        | some s2 =>
          refine ⟨pyStrip s, pyStrip s2, ?_, by simp, fun s3 h3 => by
            simp at h3; rw [h3], by simp, fun s3 h3 => by
            simp at h3; rw [h3], ?_⟩
          · exact hbase _ _ rfl
          · exact henrich _ _ (hbase _ _ rfl)
      | none =>
        refine ⟨pyStrip s, "No Description", ?_, by simp, fun s3 h3 => by
          simp at h3; rw [h3], fun _ => rfl, by simp, ?_⟩
        · exact hbase _ _ rfl
        · exact henrich _ _ (hbase _ _ rfl)
  | none =>
    cases d? with
    | some i =>
      cases i with
      | none => exact absurd rfl hM
      | some s2 =>
        refine ⟨"No Title", pyStrip s2, ?_, fun _ => rfl, by simp, by simp,
          fun s3 h3 => by simp at h3; rw [h3], ?_⟩
        · exact hbase _ _ rfl
        · exact henrich _ _ (hbase _ _ rfl)
    | none =>
      refine ⟨"No Title", "No Description", ?_, fun _ => rfl, by simp,
        fun _ => rfl, by simp, ?_⟩
      · exact hbase _ _ rfl
      · exact henrich _ _ (hbase _ _ rfl)

/-- A generic-page fetch with both a title string and a meta
description. -/
def fPplain : FetchRequest → Except String WebPage :=
  fun _ => .ok ⟨some (some " Example Page "), some (some "An example. ")⟩

/-- Witness for the amended C8: a page with title and description
produces the single combined reply, with surrounding whitespace
stripped. -/
theorem c8_generic_page_reply_witness :
    enrich_url fTok fPplain "#chan" "http://x.example" =
      [Event.send "#chan"
        "Page Info: Title: Example Page, Description: An example."] := by
  obtain ⟨t, d, h1, h2, h3, h4, h5, h6⟩ :=
    c8_generic_page_reply fTok fPplain "#chan" "http://x.example"
      ⟨some (some " Example Page "), some (some "An example. ")⟩
      (by decide) rfl (by decide) (by decide)
  rw [h6, h3 " Example Page " rfl, h5 "An example. " rfl]
  decide

/-- Counterexample to claim C4 as stated: when the marker occurs twice,
`url.split("watch?v=")[1]` is the text between the first and second
occurrences, not the text between the first occurrence and the next `&`
(here: end of string) that the claim's rule prescribes. -/
theorem c4_counterexample :
    get_youtube_video_id "https://youtube.com/watch?v=awatch?v=b" = some "a"
    ∧ claim_video_id "https://youtube.com/watch?v=awatch?v=b" =
        some "awatch?v=b"
    ∧ get_youtube_video_id "https://youtube.com/watch?v=awatch?v=b" ≠
        claim_video_id "https://youtube.com/watch?v=awatch?v=b" := by
  decide

/-- Claim C4 (amended): video-identifier extraction applies the ordered
substring rules first-match-wins (`watch?v=` with stop `&`, then
`/shorts/` with stop `?`, then `youtu.be/` with stop `?`, else absent),
where the identifier is the text after the first marker occurrence
truncated at the next occurrence of the marker itself, if any, and then
at the first stop character; the claim's three concrete examples hold
unchanged. -/
theorem c4_video_id_rule :
    (∀ url, get_youtube_video_id url = amended_video_id url)
    ∧ get_youtube_video_id "https://www.youtube.com/watch?v=ABC123&t=5" =
        some "ABC123"
    ∧ get_youtube_video_id "https://youtube.com/shorts/XYZ789?feature=share" =
        some "XYZ789"
    ∧ get_youtube_video_id "youtu.be/Q1W2E3" = some "Q1W2E3" := by
  refine ⟨?_, by decide, by decide, by decide⟩
  intro url
  unfold get_youtube_video_id amended_video_id
  by_cases h1 : pyContains url "watch?v=" = true
  · simp only [h1, if_true]
    rw [pySplit_getD1 url "watch?v=" 'w' ("atch?v=").data rfl h1,
      pySplit_getD0_single _ "&" '&' rfl]
    rfl
  · simp only [h1, Bool.false_eq_true, if_false]
    by_cases h2 : pyContains url "/shorts/" = true
    · simp only [h2, if_true]
      rw [pySplit_getD1 url "/shorts/" '/' ("shorts/").data rfl h2,
        pySplit_getD0_single _ "?" '?' rfl]
      rfl
    · simp only [h2, Bool.false_eq_true, if_false]
      by_cases h3 : pyContains url "youtu.be/" = true
      · simp only [h3, if_true]
        rw [pySplit_getD1 url "youtu.be/" 'y' ("outu.be/").data rfl h3,
          pySplit_getD0_single _ "?" '?' rfl]
        rfl
      · simp only [h3, Bool.false_eq_true, if_false]
